import Mathlib

/-!
Verification of the WebFilter news-analyzer core (`src/news_analyzer.py`).

The Python module is embedded shallowly:

* pure helpers (`is_news_link`, the constants, the `NewsInfo` record) are
  translated directly;
* external collaborators that live outside this repository
  (`aiohttp` fetching, `adapters.inosmi_ru.sanitize`,
  `text_tools.split_by_words`, `text_tools.calculate_jaundice_rate`, the
  two vocabulary loaders' I/O results) are parameters gathered in an `Env`
  record — the core never inspects their internals, it only consumes their
  results, so any instantiation of `Env` is one possible world;
* Python exceptions become an `Except`/`Option` discipline: `get_rating`
  returns `Except TaskExc …`, and `handle_url` is the `try/except` block of
  `get_links_rating` (the `invalidSourceType` case is the one exception that
  block does not catch, so it is returned as an escape);
* the mutable `self.__bad_vocabulary` cache is threaded explicitly as a
  `VocState`, together with a counter of how many underlying loads ran;
* the number of HTTP GETs issued for an article URL is returned alongside
  each result (`0` when the allow-list check rejects the URL before a
  session is opened, `1` once `session_ctx.get` runs);
* Python's `float` rating is modelled as `Rat`; the arithmetic is performed
  by the external `calculate_jaundice_rate` collaborator, so only the value
  is carried, never computed inside the core.

The concurrency of `run` (`show_news_info` + `get_links_rating` under one
task group) is modelled further below by a deterministic interleaving that
follows asyncio's cooperative scheduling for this exact program.
-/

namespace WebFilter

/-- Allow-list of accepted news sites, `NEWS_SITES` in the source. -/
def NEWS_SITES : List String := ["https://inosmi.ru"]

/-- Vocabulary-source tag for the local file, `FILE_SOURCE = 0`. -/
def FILE_SOURCE : Nat := 0

/-- Vocabulary-source tag for the remote page, `URL_SOURCE = 1`. -/
def URL_SOURCE : Nat := 1

/-- Status string for a failed HTTP fetch (non-200 response). -/
def FETCH_ERROR : String := "FETCH_ERROR"

/-- Status string for an article rejected by the allow-list / parser. -/
def PARSING_ERROR : String := "PARSING_ERROR"

/-- Status string for a timed-out fetch, `TIMEOUT_ERROR` in the source. -/
def TIMEOUT_ERROR : String := "TIMEOUT"

/-- Status string for a successful analysis, `SUCCESS_STATUS = 'OK'`. -/
def SUCCESS_STATUS : String := "OK"

/-- Python's substring containment `pat in hay`, on character lists:
true iff `pat` occurs contiguously inside `hay`. -/
def sub_occurs (pat : List Char) : List Char → Bool
  | [] => pat.isEmpty
  | a :: as => pat.isPrefixOf (a :: as) || sub_occurs pat as

/-- Embedding of `is_news_link`: some allowed site string occurs as a
substring of the URL (`for site in NEWS_SITES: if site in url_link`). -/
def is_news_link (url_link : String) : Bool :=
  NEWS_SITES.any (fun site => sub_occurs site.toList url_link.toList)

/-- Embedding of the `NewsInfo` named tuple; `rate` and `words_count`
default to `0` exactly as in the source. -/
structure NewsInfo where
  url : String
  status : String
  rate : Rat := 0
  words_count : Nat := 0
deriving DecidableEq, Repr

/-- Outcome of one HTTP GET for an article URL: either the whole bounded
fetch times out (`asyncio.TimeoutError` with `time_ctx.expired`), or a
response with a status code and a body text arrives. -/
inductive FetchRes
  | timedOut
  | response (status : Nat) (body : String)
deriving DecidableEq, Repr

/-- External collaborators of the core, fixed for one run.  `fetch` is the
network's answer per URL; `sanitize`, `split_by_words` and
`calculate_jaundice_rate` are the adapter/text-tools functions; `loadFile`
and `loadUrl` give the vocabulary list produced by the n-th underlying
load from the respective source. -/
structure Env where
  fetch : String → FetchRes
  sanitize : String → String
  split_by_words : String → List String
  calculate_jaundice_rate : List String → List String → Rat
  loadFile : Nat → List String
  loadUrl : Nat → List String

/-- Exceptions that can leave `get_rating`: the three per-task errors the
orchestrator catches, plus `InvalidSourceType` which it does not. -/
inductive TaskExc
  | badResponse
  | articleNotFound
  | timeElapsed
  | invalidSourceType
deriving DecidableEq, Repr

/-- The mutable vocabulary cache `self.__bad_vocabulary` (initially `[]`)
together with a count of underlying loads performed so far. -/
structure VocState where
  bad_vocabulary : List String := []
  loads : Nat := 0
deriving DecidableEq, Repr

/-- Embedding of `scrap_news_page`: the allow-list check runs first and
raises `ArticleNotFound` before any HTTP session is opened (second
component: number of GETs issued, `0` on that path).  Otherwise one GET is
issued; a timeout raises `TimeElapsedError`, a non-200 status raises
`BadResponse`, and a 200 body is passed through the sanitizer. -/
def scrap_news_page (env : Env) (url_link : String) :
    Except TaskExc String × Nat :=
  if is_news_link url_link then
    match env.fetch url_link with
    | .timedOut => (.error .timeElapsed, 1)
    | .response status body =>
      if status = 200 then (.ok (env.sanitize body), 1)
      else (.error .badResponse, 1)
  else
    (.error .articleNotFound, 0)

/-- Embedding of `get_bad_vocabulary`: the cache test is Python's
truthiness check `if not self.__bad_vocabulary`, so only a non-empty
cached list short-circuits the load; otherwise the configured source is
consulted, and an unrecognized source tag raises `InvalidSourceType`. -/
def get_bad_vocabulary (env : Env) (source : Nat) (st : VocState) :
    Except TaskExc (List String × VocState) :=
  match st.bad_vocabulary with
  | w :: ws => .ok (w :: ws, st)
  | [] =>
    if source = FILE_SOURCE then
      let v := env.loadFile st.loads
      .ok (v, ⟨v, st.loads + 1⟩)
    else if source = URL_SOURCE then
      let v := env.loadUrl st.loads
      .ok (v, ⟨v, st.loads + 1⟩)
    else
      .error .invalidSourceType

/-- Embedding of `get_rating`: scrape, tokenize, fetch the charged
vocabulary, score, and build the success `NewsInfo`.  The second component
counts HTTP GETs issued for the article URL. -/
def get_rating (env : Env) (source : Nat) (url_link : String)
    (st : VocState) : Except TaskExc (NewsInfo × VocState) × Nat :=
  match scrap_news_page env url_link with
  | (.error e, n) => (.error e, n)
  | (.ok news_body, n) =>
    let news_words := env.split_by_words news_body
    match get_bad_vocabulary env source st with
    | .error e => (.error e, n)
    | .ok (bad_words, st') =>
      let rate := env.calculate_jaundice_rate news_words bad_words
      (.ok (⟨url_link, SUCCESS_STATUS, rate, news_words.length⟩, st'), n)

/-- The `try/except` body of `get_links_rating` for one URL: a caught
exception is converted into an error `NewsInfo` with default `rate`/
`words_count`; `InvalidSourceType` is not caught and escapes as `none`. -/
def handle_url (env : Env) (source : Nat) (url : String) (st : VocState) :
    Option NewsInfo × VocState × Nat :=
  match get_rating env source url st with
  | (.ok (info, st'), n) => (some info, st', n)
  | (.error .badResponse, n) =>
    (some { url := url, status := FETCH_ERROR }, st, n)
  | (.error .articleNotFound, n) =>
    (some { url := url, status := PARSING_ERROR }, st, n)
  | (.error .timeElapsed, n) =>
    (some { url := url, status := TIMEOUT_ERROR }, st, n)
  | (.error .invalidSourceType, n) => (none, st, n)

/-- Observable outcome of one `get_links_rating` call: the `NewsInfo`
records pushed onto the queue in emission order, the total number of
article GETs issued, the final vocabulary cache, the exception escaping
the method if any, and whether `self.__work_status = IS_STOP` was
reached (the assignment sits after the loop, so an escaping exception
skips it). -/
structure RunOut where
  emitted : List NewsInfo
  fetches : Nat
  voc : VocState
  escaped : Option TaskExc
  stopped : Bool
deriving Repr

/-- Loop of `get_links_rating` over the remaining URLs, carrying the
vocabulary state, the GET counter and the list emitted so far. -/
def links_rating_go (env : Env) (source : Nat) :
    List String → VocState → Nat → List NewsInfo → RunOut
  | [], st, n, acc => ⟨acc, n, st, none, true⟩
  | url :: rest, st, n, acc =>
    match handle_url env source url st with
    | (some info, st', k) =>
      links_rating_go env source rest st' (n + k) (acc ++ [info])
    | (none, st', k) => ⟨acc, n + k, st', some .invalidSourceType, false⟩

/-- Embedding of `get_links_rating`: URLs are processed sequentially
(`await self.get_rating(url)` inside the for-loop; the surrounding task
group spawns no child task), starting from the fresh cache of
`__init__`. -/
def get_links_rating (env : Env) (source : Nat) (links : List String) :
    RunOut :=
  links_rating_go env source links {} 0 []

/-- A concrete environment used for closed evaluations: every fetch
answers 200 with an empty body, the collaborators are trivial, and both
vocabulary loaders always return the one-word list `["bad"]`. -/
def env0 : Env where
  fetch := fun _ => .response 200 ""
  sanitize := id
  split_by_words := fun _ => []
  calculate_jaundice_rate := fun _ _ => 0
  loadFile := fun _ => ["bad"]
  loadUrl := fun _ => ["bad"]

/-- Repeated sequential calls of `get_bad_vocabulary` on one
`NewsAnalyzer` instance: the k-th entry of the first component is what
the k-th call returns (or the exception it raises), with the cache state
threaded from call to call. -/
def vocab_calls (env : Env) (source : Nat) :
    Nat → VocState → List (Except TaskExc (List String)) × VocState
  | 0, st => ([], st)
  | k + 1, st =>
    match get_bad_vocabulary env source st with
    | .ok (v, st') =>
      let r := vocab_calls env source k st'
      (.ok v :: r.1, r.2)
    | .error e =>
      let r := vocab_calls env source k st
      (.error e :: r.1, r.2)

/-- Environment whose first underlying file load yields the empty
vocabulary and whose second yields `["x"]`. -/
def env_empty_first : Env :=
  { env0 with loadFile := fun n => if n = 0 then [] else ["x"] }

/-- Value produced by the first underlying load for the configured
source. -/
def first_load (env : Env) (source : Nat) : List String :=
  if source = FILE_SOURCE then env.loadFile 0 else env.loadUrl 0

/-- Timed abstraction of the `get_links_rating` loop: `await
self.get_rating(url)` runs to completion before the next iteration
starts, so with `d url` the processing duration of `url`, each URL's task
starts at the previous URL's finish time and emits at `start + d url`.
`finish_times d links t` lists the emission times when the loop starts at
time `t`. -/
def finish_times (d : String → Nat) : List String → Nat → List Nat
  | [], _ => []
  | url :: rest, t => (t + d url) :: finish_times d rest (t + d url)

/-- Duration assignment with a slow URL `"a"` (5 units) and a fast URL
`"b"` (1 unit). -/
def d_c2 : String → Nat := fun u => if u = "a" then 5 else 1

/-!
Interleaved model of `run`: `show_news_info` (the Reporter) and
`get_links_rating` (the producer) under one task group.  asyncio runs the
tasks in `start_soon` order, so the reporter executes first: it checks
`self.__work_status != IS_STOP` (true — `__init__` set `IS_RUN`), calls
`await self.__news_info.get()` on the empty queue and blocks.  From then
on the producer runs until it suspends at a real await (the network
awaits of a URL that passed the allow-list check; a URL rejected by
`is_news_link` raises `ArticleNotFound` before any await, so its whole
iteration — including `put_nowait` — runs without yielding).  A
`put_nowait` wakes the blocked reporter but does not yield; the reporter
actually runs at the producer's next suspension, where it drains the
whole queue (the status is still `IS_RUN` while the producer is
suspended) and blocks again.  When the producer finishes — it sets
`IS_STOP` and returns without a further checkpoint (its own task group
has no child tasks to wait for) — the event loop runs the reporter one
last time only if some `put_nowait` since its last block left the queue
non-empty: the reporter then completes the pending `get`, prints that one
result, re-checks the status, observes `IS_STOP` and exits, leaving any
later-enqueued results behind.  If instead the queue is empty at that
point, no wake-up is pending and the reporter stays blocked on `get`
forever, so `run`'s task group never joins.
-/

/-- State of the `run` interleaving: the pending queue `self.__news_info`,
the results already printed by `show_news_info` in print order, whether
the reporter's `while` loop has exited, and whether `self.__work_status`
is `IS_STOP`.  A final state with `reporter_done = false` means
`show_news_info` is still blocked on `await get()`, so `run` never
returns. -/
structure SimSt where
  queue : List NewsInfo := []
  printed : List NewsInfo := []
  reporter_done : Bool := false
  stopped : Bool := false
deriving DecidableEq, Repr

/-- The reporter resuming from a completed `await self.__news_info.get()`
with `stop` the work status it observes: it prints the popped result and
re-enters the `while` check.  While `stop = false` it keeps popping until
the queue is empty and then blocks again (third component `false`); with
`stop = true` it exits right after the first print, leaving the rest of
the queue unconsumed (third component `true`). -/
def drain_loop (stop : Bool) :
    List NewsInfo → List NewsInfo →
      List NewsInfo × List NewsInfo × Bool
  | [], printed => ([], printed, false)
  | info :: rest, printed =>
    if stop then (rest, printed ++ [info], true)
    else drain_loop stop rest (printed ++ [info])

/-- One iteration of the producer loop for `url` in the interleaving.  If
the URL passes the allow-list check the producer suspends at its network
awaits before emitting, and the reporter — woken iff an earlier
`put_nowait` left the queue non-empty — drains the queue under
`IS_RUN`; then the iteration's single `put_nowait` appends its result.
`none` models the uncaught `InvalidSourceType` escaping the loop. -/
def sim_step (env : Env) (source : Nat) (url : String) (st : VocState)
    (s : SimSt) : Option (VocState × SimSt) :=
  let s1 :=
    if is_news_link url && !s.queue.isEmpty && !s.reporter_done then
      let r := drain_loop false s.queue s.printed
      { s with queue := r.1, printed := r.2.1, reporter_done := r.2.2 }
    else s
  match handle_url env source url st with
  | (some info, st', _) =>
    some (st', { s1 with queue := s1.queue ++ [info] })
  | (none, _, _) => none

/-- The producer loop of the interleaved `run` model, followed by its
epilogue: `self.__work_status = IS_STOP` is assigned, the producer task
ends, and the reporter gets its final wake-up iff the queue is
non-empty. -/
def sim_run_go (env : Env) (source : Nat) :
    List String → VocState → SimSt → SimSt
  | [], _, s =>
    let s1 : SimSt := { s with stopped := true }
    if s1.queue.isEmpty || s1.reporter_done then s1
    else
      let r := drain_loop true s1.queue s1.printed
      { s1 with queue := r.1, printed := r.2.1, reporter_done := r.2.2 }
  | url :: rest, st, s =>
    match sim_step env source url st s with
    | some (st', s') => sim_run_go env source rest st' s'
    | none => s

/-- Full interleaved execution of `run`: both coroutines start from the
`__init__` state (empty queue, reporter blocked, `IS_RUN`). -/
def sim_run (env : Env) (source : Nat) (links : List String) : SimSt :=
  sim_run_go env source links {} {}

theorem sub_occurs_iff (pat hay : List Char) :
    sub_occurs pat hay = true ↔ pat <:+: hay := by
  induction hay with
  | nil =>
    simp [sub_occurs, List.isEmpty_iff]
  | cons a as ih =>
    simp [sub_occurs, List.infix_cons_iff, ih]

theorem is_news_link_iff (url : String) :
    is_news_link url = true ↔
      ∃ site ∈ NEWS_SITES, site.toList <:+: url.toList := by
  simp [is_news_link, List.any_eq_true, sub_occurs_iff]

theorem scrap_news_page_ne_invalidSource (env : Env) (url : String) :
    (scrap_news_page env url).1 ≠ .error .invalidSourceType := by
  unfold scrap_news_page
  by_cases h : is_news_link url = true
  · simp only [h, if_true]
    cases env.fetch url with
    | timedOut => simp
    | response s b =>
      by_cases hs : s = 200 <;> simp [hs]
  · simp [h]

theorem get_bad_vocabulary_ok (env : Env) (source : Nat) (st : VocState)
    (h : source = FILE_SOURCE ∨ source = URL_SOURCE) :
    ∃ v st', get_bad_vocabulary env source st = .ok (v, st') := by
  unfold get_bad_vocabulary
  cases hb : st.bad_vocabulary with
  | cons w ws => exact ⟨w :: ws, st, rfl⟩
  | nil =>
    rcases h with h | h <;> subst h
    · exact ⟨_, _, if_pos rfl⟩
    · refine ⟨env.loadUrl st.loads, ⟨env.loadUrl st.loads, st.loads + 1⟩, ?_⟩
      rw [if_neg (by decide), if_pos rfl]

theorem handle_url_some (env : Env) (source : Nat) (url : String)
    (st : VocState) (h : source = FILE_SOURCE ∨ source = URL_SOURCE) :
    ∃ info st' k, handle_url env source url st = (some info, st', k) ∧
      info.url = url := by
  unfold handle_url get_rating
  rcases hs : scrap_news_page env url with ⟨r, n⟩
  cases r with
  | error e =>
    cases e with
    | badResponse => exact ⟨_, st, n, rfl, rfl⟩
    | articleNotFound => exact ⟨_, st, n, rfl, rfl⟩
    | timeElapsed => exact ⟨_, st, n, rfl, rfl⟩
    | invalidSourceType =>
      exact absurd (by rw [hs]) (scrap_news_page_ne_invalidSource env url)
  | ok body =>
    rcases get_bad_vocabulary_ok env source st h with ⟨v, st', hv⟩
    rw [hv]
    exact ⟨_, st', n, rfl, rfl⟩

theorem links_rating_go_spec (env : Env) (source : Nat)
    (h : source = FILE_SOURCE ∨ source = URL_SOURCE) :
    ∀ links st n acc,
      (links_rating_go env source links st n acc).emitted.map NewsInfo.url
          = acc.map NewsInfo.url ++ links ∧
      (links_rating_go env source links st n acc).escaped = none ∧
      (links_rating_go env source links st n acc).stopped = true := by
  intro links
  induction links with
  | nil => intro st n acc; simp [links_rating_go]
  | cons url rest ih =>
    intro st n acc
    rcases handle_url_some env source url st h with ⟨info, st', k, hh, hu⟩
    simp only [links_rating_go, hh]
    rcases ih st' (n + k) (acc ++ [info]) with ⟨h1, h2, h3⟩
    refine ⟨?_, h2, h3⟩
    rw [h1, List.map_append, List.map_singleton, hu, List.append_assoc,
      List.singleton_append]

/-- C1. For every submitted list of N URLs (with a recognized vocabulary
source, the configuration under which the run follows the four listed
paths), a completed `get_links_rating` enqueues exactly N `NewsInfo`
results; the sequence of their `url` fields is exactly the input list, so
no input URL is lost and none yields more than one result, and no
exception escapes the method. -/
theorem C1_one_result_per_url (env : Env) (source : Nat)
    (links : List String)
    (h : source = FILE_SOURCE ∨ source = URL_SOURCE) :
    (get_links_rating env source links).emitted.length = links.length ∧
    (get_links_rating env source links).emitted.map NewsInfo.url = links ∧
    (get_links_rating env source links).escaped = none := by
  rcases links_rating_go_spec env source h links {} 0 [] with ⟨h1, h2, _⟩
  simp only [List.map_nil, List.nil_append] at h1
  refine ⟨?_, h1, h2⟩
  conv_rhs => rw [← h1, List.length_map]
  rfl

theorem C1_one_result_per_url_witness :
    (FILE_SOURCE = FILE_SOURCE ∨ FILE_SOURCE = URL_SOURCE) ∧
    (get_links_rating env0 FILE_SOURCE
        ["https://inosmi.ru/a", "https://bad-domain.test/x"]).emitted.length
      = 2 ∧
    (get_links_rating env0 FILE_SOURCE
        ["https://inosmi.ru/a", "https://bad-domain.test/x"]).emitted.map
        NewsInfo.url
      = ["https://inosmi.ru/a", "https://bad-domain.test/x"] ∧
    (get_links_rating env0 FILE_SOURCE
        ["https://inosmi.ru/a", "https://bad-domain.test/x"]).escaped
      = none :=
  ⟨Or.inl rfl, C1_one_result_per_url env0 FILE_SOURCE _ (Or.inl rfl)⟩

/-- C10. Results are enqueued in exactly the submission order of
`news_links`: the emitted sequence's `url` fields, in queue order, are the
input list itself, so if URL A precedes URL B in the input then A's result
is enqueued before B's (the loop awaits each URL in turn and pushes its
record before touching the next URL). -/
theorem C10_submission_order (env : Env) (source : Nat)
    (links : List String)
    (h : source = FILE_SOURCE ∨ source = URL_SOURCE) :
    (get_links_rating env source links).emitted.map NewsInfo.url = links := by
  have hs := (links_rating_go_spec env source h links {} 0 []).1
  simpa [get_links_rating] using hs

theorem C10_submission_order_witness :
    (FILE_SOURCE = FILE_SOURCE ∨ FILE_SOURCE = URL_SOURCE) ∧
    (get_links_rating env0 FILE_SOURCE
        ["https://bad-domain.test/x", "https://inosmi.ru/a"]).emitted.map
        NewsInfo.url
      = ["https://bad-domain.test/x", "https://inosmi.ru/a"] :=
  ⟨Or.inl rfl, C10_submission_order env0 FILE_SOURCE _ (Or.inl rfl)⟩

/-- Every `NewsInfo` that `handle_url` can emit either has the success
status or carries the record defaults `rate = 0`, `words_count = 0`. -/
theorem handle_url_defaults (env : Env) (source : Nat) (url : String)
    (st : VocState) (info : NewsInfo) (st' : VocState) (k : Nat)
    (hh : handle_url env source url st = (some info, st', k)) :
    info.status ≠ SUCCESS_STATUS →
      info.rate = 0 ∧ info.words_count = 0 := by
  intro hns
  unfold handle_url get_rating at hh
  rcases hs : scrap_news_page env url with ⟨r, n⟩
  rw [hs] at hh
  cases r with
  | error e =>
    cases e with
    | badResponse =>
      simp only [Prod.mk.injEq, Option.some.injEq] at hh
      rw [← hh.1]; exact ⟨rfl, rfl⟩
    | articleNotFound =>
      simp only [Prod.mk.injEq, Option.some.injEq] at hh
      rw [← hh.1]; exact ⟨rfl, rfl⟩
    | timeElapsed =>
      simp only [Prod.mk.injEq, Option.some.injEq] at hh
      rw [← hh.1]; exact ⟨rfl, rfl⟩
    | invalidSourceType =>
      simp only [Prod.mk.injEq] at hh
      exact Option.noConfusion hh.1
  | ok body =>
    simp only at hh
    rcases hv : get_bad_vocabulary env source st with e | ⟨v, st2⟩ <;>
      rw [hv] at hh
    · cases e with
      | badResponse =>
        simp only [Prod.mk.injEq, Option.some.injEq] at hh
        rw [← hh.1]; exact ⟨rfl, rfl⟩
      | articleNotFound =>
        simp only [Prod.mk.injEq, Option.some.injEq] at hh
        rw [← hh.1]; exact ⟨rfl, rfl⟩
      | timeElapsed =>
        simp only [Prod.mk.injEq, Option.some.injEq] at hh
        rw [← hh.1]; exact ⟨rfl, rfl⟩
      | invalidSourceType =>
        simp only [Prod.mk.injEq] at hh
        exact Option.noConfusion hh.1
    · exact absurd (congrArg NewsInfo.status
        (Option.some.inj (congrArg Prod.fst hh))).symm hns

theorem links_rating_go_defaults (env : Env) (source : Nat) :
    ∀ links st n acc,
      (∀ i ∈ acc, i.status ≠ SUCCESS_STATUS →
        i.rate = 0 ∧ i.words_count = 0) →
      ∀ i ∈ (links_rating_go env source links st n acc).emitted,
        i.status ≠ SUCCESS_STATUS → i.rate = 0 ∧ i.words_count = 0 := by
  intro links
  induction links with
  | nil => intro st n acc hacc; simpa [links_rating_go] using hacc
  | cons url rest ih =>
    intro st n acc hacc
    rcases hh : handle_url env source url st with ⟨o, st', k⟩
    cases o with
    | none => simpa [links_rating_go, hh] using hacc
    | some info =>
      simp only [links_rating_go, hh]
      refine ih st' (n + k) (acc ++ [info]) ?_
      intro i hi
      rcases List.mem_append.mp hi with hl | hr
      · exact hacc i hl
      · rw [List.mem_singleton.mp hr]
        exact handle_url_defaults env source url st info st' k hh

/-- C9. Every `NewsInfo` the run enqueues whose status is not the success
status `'OK'` carries the zero defaults: `rate = 0` and `words_count = 0`,
on every error path (`FETCH_ERROR`, `PARSING_ERROR`, `TIMEOUT`). -/
theorem C9_error_results_zeroed (env : Env) (source : Nat)
    (links : List String) (info : NewsInfo)
    (hmem : info ∈ (get_links_rating env source links).emitted)
    (hns : info.status ≠ SUCCESS_STATUS) :
    info.rate = 0 ∧ info.words_count = 0 :=
  links_rating_go_defaults env source links {} 0 [] (by simp) info hmem hns

theorem C9_error_results_zeroed_witness :
    ({ url := "https://bad-domain.test/x", status := PARSING_ERROR }
        : NewsInfo)
      ∈ (get_links_rating env0 FILE_SOURCE
          ["https://bad-domain.test/x"]).emitted ∧
    PARSING_ERROR ≠ SUCCESS_STATUS ∧
    ({ url := "https://bad-domain.test/x", status := PARSING_ERROR }
        : NewsInfo).rate = 0 ∧
    ({ url := "https://bad-domain.test/x", status := PARSING_ERROR }
        : NewsInfo).words_count = 0 := by
  refine ⟨by decide, by decide, ?_⟩
  exact C9_error_results_zeroed env0 FILE_SOURCE
    ["https://bad-domain.test/x"] _ (by decide) (by decide)

/-- C4. With a recognized vocabulary source, every per-task failure is
caught at the task boundary of `get_links_rating` and converted into
exactly one `NewsInfo`: an allow-list rejection (`ArticleNotFound`) gives
status `PARSING_ERROR` with no GET issued, a timeout (`TimeElapsedError`)
gives status `TIMEOUT`, a non-200 response (`BadResponse`) gives status
`FETCH_ERROR`; the handler never lets an exception through (`none` is
impossible), and no exception escapes `get_links_rating`. -/
theorem C4_error_mapping (env : Env) (source : Nat) (url : String)
    (st : VocState) (h : source = FILE_SOURCE ∨ source = URL_SOURCE) :
    (is_news_link url = false →
      handle_url env source url st
        = (some { url := url, status := PARSING_ERROR }, st, 0)) ∧
    (is_news_link url = true → env.fetch url = .timedOut →
      handle_url env source url st
        = (some { url := url, status := TIMEOUT_ERROR }, st, 1)) ∧
    (∀ s b, is_news_link url = true → env.fetch url = .response s b →
      s ≠ 200 →
      handle_url env source url st
        = (some { url := url, status := FETCH_ERROR }, st, 1)) ∧
    (handle_url env source url st).1 ≠ none ∧
    (∀ links, (get_links_rating env source links).escaped = none) := by
  refine ⟨?_, ?_, ?_, ?_, ?_⟩
  · intro hb
    unfold handle_url get_rating scrap_news_page
    simp [hb]
  · intro hb hf
    unfold handle_url get_rating scrap_news_page
    simp [hb, hf]
  · intro s b hb hf hs
    unfold handle_url get_rating scrap_news_page
    simp [hb, hf, hs]
  · rcases handle_url_some env source url st h with ⟨info, st', k, hh, _⟩
    simp [hh]
  · intro links
    exact (links_rating_go_spec env source h links {} 0 []).2.1

theorem C4_error_mapping_witness :
    (FILE_SOURCE = FILE_SOURCE ∨ FILE_SOURCE = URL_SOURCE) ∧
    is_news_link "https://bad-domain.test/x" = false ∧
    handle_url env0 FILE_SOURCE "https://bad-domain.test/x" {}
      = (some { url := "https://bad-domain.test/x",
                status := PARSING_ERROR }, {}, 0) :=
  ⟨Or.inl rfl, by decide,
    (C4_error_mapping env0 FILE_SOURCE "https://bad-domain.test/x" {}
      (Or.inl rfl)).1 (by decide)⟩

/-- C6. For every URL in which no allowed site string of `NEWS_SITES`
occurs as a substring, `scrap_news_page` fails with `ArticleNotFound`
having issued zero HTTP GETs (the check precedes any session), and the
run's handler reports that URL with status `PARSING_ERROR`; conversely,
for every URL containing an allowed site string, the check passes and
exactly one HTTP GET is issued. -/
theorem C6_allow_list_gate (env : Env) (url : String) :
    ((∀ site ∈ NEWS_SITES, ¬ site.toList <:+: url.toList) →
      scrap_news_page env url = (.error .articleNotFound, 0) ∧
      ∀ source st, handle_url env source url st
        = (some { url := url, status := PARSING_ERROR }, st, 0)) ∧
    ((∃ site ∈ NEWS_SITES, site.toList <:+: url.toList) →
      is_news_link url = true ∧ (scrap_news_page env url).2 = 1) := by
  constructor
  · intro hno
    have hb : is_news_link url = false := by
      rw [← Bool.not_eq_true, is_news_link_iff]
      push_neg
      exact hno
    constructor
    · unfold scrap_news_page
      simp [hb]
    · intro source st
      unfold handle_url get_rating scrap_news_page
      simp [hb]
  · intro hyes
    have hb : is_news_link url = true := (is_news_link_iff url).mpr hyes
    refine ⟨hb, ?_⟩
    unfold scrap_news_page
    rw [if_pos hb]
    cases env.fetch url with
    | timedOut => rfl
    | response s b =>
      by_cases hs : s = 200 <;> simp [hs]

theorem C6_allow_list_gate_witness :
    (∀ site ∈ NEWS_SITES,
      ¬ site.toList <:+: "https://bad-domain.test/x".toList) ∧
    scrap_news_page env0 "https://bad-domain.test/x"
      = (.error .articleNotFound, 0) ∧
    handle_url env0 FILE_SOURCE "https://bad-domain.test/x" {}
      = (some { url := "https://bad-domain.test/x",
                status := PARSING_ERROR }, {}, 0) ∧
    (∃ site ∈ NEWS_SITES,
      site.toList <:+: "https://inosmi.ru/economic/1.html".toList) ∧
    (scrap_news_page env0 "https://inosmi.ru/economic/1.html").2 = 1 := by
  have h1 := (C6_allow_list_gate env0 "https://bad-domain.test/x").1
    (by decide)
  have h2 := (C6_allow_list_gate env0
    "https://inosmi.ru/economic/1.html").2 (by decide)
  exact ⟨by decide, h1.1, h1.2 FILE_SOURCE {}, by decide, h2.2⟩

/-- C7 counterexample. With the unrecognized vocabulary source `2` and one
allow-listed URL whose fetch answers 200, the run issues one HTTP GET
before `InvalidSourceType` surfaces (`fetches = 1` in the outcome that
carries the escaped exception), so the invalid configuration is not
detected before per-URL work starts and not before any fetch is issued. -/
theorem C7_counterexample :
    (get_links_rating env0 2 ["https://inosmi.ru/a"]).fetches = 1 ∧
    (get_links_rating env0 2 ["https://inosmi.ru/a"]).escaped
      = some .invalidSourceType ∧
    (get_links_rating env0 2 ["https://inosmi.ru/a"]).emitted = [] ∧
    (get_links_rating env0 2 ["https://inosmi.ru/a"]).stopped = false := by
  refine ⟨?_, ?_, ?_, ?_⟩ <;> decide

/-- C7 amended. An unrecognized vocabulary source (neither `FILE_SOURCE`
nor `URL_SOURCE`) is detected only lazily: the first per-URL task that
passes the allow-list check, receives a 200 response and reaches the
vocabulary lookup raises `InvalidSourceType` after its own HTTP GET has
already been issued (`get_rating` reports the error together with one
issued fetch); the exception is not converted into a per-URL result
(`handle_url` escapes with `none`), and it escapes `get_links_rating`
uncaught with the work status never set to stopped. -/
theorem C7_lazy_invalid_source (env : Env) (source : Nat) (url : String)
    (st : VocState) (body : String)
    (h0 : source ≠ FILE_SOURCE) (h1 : source ≠ URL_SOURCE)
    (hc : st.bad_vocabulary = [])
    (hl : is_news_link url = true)
    (hf : env.fetch url = .response 200 body) :
    get_rating env source url st = (.error .invalidSourceType, 1) ∧
    handle_url env source url st = (none, st, 1) ∧
    (get_links_rating env source [url]).escaped
      = some .invalidSourceType ∧
    (get_links_rating env source [url]).fetches = 1 ∧
    (get_links_rating env source [url]).emitted = [] ∧
    (get_links_rating env source [url]).stopped = false := by
  have key : ∀ st' : VocState, st'.bad_vocabulary = [] →
      get_rating env source url st' = (.error .invalidSourceType, 1) ∧
      handle_url env source url st' = (none, st', 1) := by
    intro st' hc'
    have hv : get_bad_vocabulary env source st'
        = .error .invalidSourceType := by
      unfold get_bad_vocabulary
      simp [hc', h0, h1]
    have hr : get_rating env source url st'
        = (.error .invalidSourceType, 1) := by
      unfold get_rating scrap_news_page
      rw [if_pos hl, hf]
      simp [hv]
    exact ⟨hr, by unfold handle_url; rw [hr]⟩
  rcases key st hc with ⟨hr, hh⟩
  rcases key {} rfl with ⟨-, hh0⟩
  have hg : get_links_rating env source [url]
      = ⟨[], 0 + 1, {}, some .invalidSourceType, false⟩ := by
    unfold get_links_rating links_rating_go
    rw [hh0]
  exact ⟨hr, hh, by rw [hg], by rw [hg], by rw [hg], by rw [hg]⟩

theorem C7_lazy_invalid_source_witness :
    is_news_link "https://inosmi.ru/a" = true ∧
    env0.fetch "https://inosmi.ru/a" = .response 200 "" ∧
    get_rating env0 2 "https://inosmi.ru/a" {}
      = (.error .invalidSourceType, 1) ∧
    handle_url env0 2 "https://inosmi.ru/a" {} = (none, {}, 1) := by
  have h := C7_lazy_invalid_source env0 2 "https://inosmi.ru/a" {} ""
    (by decide) (by decide) rfl (by decide) rfl
  exact ⟨by decide, rfl, h.1, h.2.1⟩

/-- C8 counterexample. When the first completed load returns the empty
list, the truthiness cache check `if not self.__bad_vocabulary` fails
again on the next call: two calls perform two underlying loads and the
second call returns a different value than the first, refuting
"at most one underlying load for every result the first load may
return". -/
theorem C8_counterexample :
    (vocab_calls env_empty_first FILE_SOURCE 2 {}).1
      = [.ok [], .ok ["x"]] ∧
    (vocab_calls env_empty_first FILE_SOURCE 2 {}).2.loads = 2 ∧
    (.ok [] : Except TaskExc (List String)) ≠ .ok ["x"] := by
  refine ⟨rfl, by decide, fun hcontra => by simp at hcontra⟩

theorem get_bad_vocabulary_cached (env : Env) (source : Nat)
    (st : VocState) (h : st.bad_vocabulary ≠ []) :
    get_bad_vocabulary env source st = .ok (st.bad_vocabulary, st) := by
  unfold get_bad_vocabulary
  cases hb : st.bad_vocabulary with
  | nil => exact absurd hb h
  | cons w ws => rfl

/-- C8 amended. After a first completed call that loads a NON-EMPTY
vocabulary, every subsequent call returns the same value as the first and
performs no further load (the load counter stays at 1); when the first
load returns the empty list the cache check fails and each call reloads
(see the counterexample). -/
theorem C8_cached_after_nonempty_first_load (env : Env) (source : Nat)
    (k : Nat) (h : source = FILE_SOURCE ∨ source = URL_SOURCE)
    (hne : first_load env source ≠ []) :
    vocab_calls env source (k + 1) {}
      = (List.replicate (k + 1) (.ok (first_load env source)),
         ⟨first_load env source, 1⟩) := by
  have hfirst : get_bad_vocabulary env source {}
      = .ok (first_load env source, ⟨first_load env source, 1⟩) := by
    unfold get_bad_vocabulary first_load
    rcases h with h | h <;> subst h <;> simp [FILE_SOURCE, URL_SOURCE]
  have hloop : ∀ m, vocab_calls env source m ⟨first_load env source, 1⟩
      = (List.replicate m (.ok (first_load env source)),
         ⟨first_load env source, 1⟩) := by
    intro m
    induction m with
    | zero => rfl
    | succ m ih =>
      have hc := get_bad_vocabulary_cached env source
        ⟨first_load env source, 1⟩ hne
      simp only [vocab_calls, hc, ih, List.replicate_succ]
  simp only [vocab_calls, hfirst, hloop k, List.replicate_succ]

theorem C8_cached_after_nonempty_first_load_witness :
    first_load env0 FILE_SOURCE ≠ [] ∧
    vocab_calls env0 FILE_SOURCE 2 {}
      = (List.replicate 2 (.ok ["bad"]), ⟨["bad"], 1⟩) :=
  ⟨by decide,
    C8_cached_after_nonempty_first_load env0 FILE_SOURCE 1 (Or.inl rfl)
      (by decide)⟩

/-- C2 counterexample. With two URLs of durations 5 and 1, the sequential
loop emits at times `[5, 6]` rather than at each task's own duration
`[5, 1]`: the slow first URL delays the second URL's completion, so the
URLs are not run as independent tasks all launched together. -/
theorem C2_counterexample :
    finish_times d_c2 ["a", "b"] 0 = [5, 6] ∧
    [d_c2 "a", d_c2 "b"] = [5, 1] ∧
    finish_times d_c2 ["a", "b"] 0 ≠ [d_c2 "a", d_c2 "b"] := by
  refine ⟨?_, ?_, ?_⟩ <;> decide

theorem finish_times_get? (d : String → Nat) :
    ∀ (links : List String) (t i : Nat), i < links.length →
      (finish_times d links t).get? i
        = some (t + ((links.take (i + 1)).map d).sum) := by
  intro links
  induction links with
  | nil => intro t i hi; exact absurd hi (by simp)
  | cons url rest ih =>
    intro t i hi
    cases i with
    | zero => simp [finish_times]
    | succ i =>
      have hi' : i < rest.length := by simpa using hi
      simp only [finish_times, List.get?_cons_succ, ih (t + d url) i hi',
        List.take_succ_cons, List.map_cons, List.sum_cons]
      exact congrArg some (by omega)

/-- C2 amended. The orchestrator does not fan out: `get_links_rating`
processes the URLs strictly sequentially inside one task (the i-th URL's
result is emitted at the sum of the durations of URLs 0..i, so a slow or
timed-out URL delays every later URL), while a handled failure of one URL
still never prevents the remaining URLs from being processed — every URL
gets its result. -/
theorem C2_sequential_processing (env : Env) (source : Nat)
    (d : String → Nat) (links : List String) (i : Nat)
    (h : source = FILE_SOURCE ∨ source = URL_SOURCE)
    (hi : i < links.length) :
    (finish_times d links 0).get? i
      = some (((links.take (i + 1)).map d).sum) ∧
    (get_links_rating env source links).emitted.map NewsInfo.url
      = links := by
  constructor
  · simpa using finish_times_get? d links 0 i hi
  · simpa [get_links_rating] using
      (links_rating_go_spec env source h links {} 0 []).1

theorem C2_sequential_processing_witness :
    (FILE_SOURCE = FILE_SOURCE ∨ FILE_SOURCE = URL_SOURCE) ∧
    1 < (["a", "b"] : List String).length ∧
    (finish_times d_c2 ["a", "b"] 0).get? 1
      = some (((["a", "b"].take 2).map d_c2).sum) ∧
    (get_links_rating env0 FILE_SOURCE ["a", "b"]).emitted.map
      NewsInfo.url = ["a", "b"] :=
  ⟨Or.inl rfl, by decide,
    C2_sequential_processing env0 FILE_SOURCE d_c2 ["a", "b"] 1
      (Or.inl rfl) (by decide)⟩

theorem drain_loop_false (q p : List NewsInfo) :
    drain_loop false q p = ([], p ++ q, false) := by
  induction q generalizing p with
  | nil => simp [drain_loop]
  | cons info rest ih =>
    simp [drain_loop, ih (p ++ [info]), List.append_assoc]

theorem links_rating_go_emitted_acc (env : Env) (source : Nat) :
    ∀ (links : List String) (st : VocState) (n : Nat)
      (acc : List NewsInfo),
      (links_rating_go env source links st n acc).emitted
        = acc ++ (links_rating_go env source links st 0 []).emitted := by
  intro links
  induction links with
  | nil => intro st n acc; simp [links_rating_go]
  | cons url rest ih =>
    intro st n acc
    rcases hh : handle_url env source url st with ⟨o, st', k⟩
    cases o with
    | some info =>
      simp only [links_rating_go, hh]
      rw [ih st' (n + k) (acc ++ [info]), ih st' (0 + k) ([] ++ [info])]
      simp [List.append_assoc]
    | none => simp [links_rating_go, hh]

theorem sim_step_spec (env : Env) (source : Nat) (url : String)
    (st : VocState) (s : SimSt) (info : NewsInfo) (st' : VocState)
    (k : Nat) (hh : handle_url env source url st = (some info, st', k))
    (hr : s.reporter_done = false) :
    ∃ s2 : SimSt, sim_step env source url st s = some (st', s2) ∧
      s2.reporter_done = false ∧ s2.stopped = s.stopped ∧
      s2.printed ++ s2.queue = s.printed ++ (s.queue ++ [info]) := by
  unfold sim_step
  by_cases hcond :
      (is_news_link url && !s.queue.isEmpty && !s.reporter_done) = true
  · rw [if_pos hcond, drain_loop_false]
    rw [hh]
    refine ⟨_, rfl, rfl, rfl, ?_⟩
    simp
  · rw [if_neg hcond, hh]
    refine ⟨_, rfl, hr, rfl, ?_⟩
    simp

theorem sim_run_go_spec (env : Env) (source : Nat)
    (h : source = FILE_SOURCE ∨ source = URL_SOURCE) :
    ∀ (links : List String) (st : VocState) (s : SimSt),
      s.reporter_done = false →
      (sim_run_go env source links st s).stopped = true ∧
      (sim_run_go env source links st s).printed
          ++ (sim_run_go env source links st s).queue
        = s.printed ++ s.queue
            ++ (links_rating_go env source links st 0 []).emitted := by
  intro links
  induction links with
  | nil =>
    intro st s hr
    simp only [sim_run_go, links_rating_go, List.append_nil]
    by_cases hq : s.queue.isEmpty = true
    · rw [if_pos (by simp [hq, hr])]
      exact ⟨rfl, rfl⟩
    · rw [if_neg (by simp [hq, hr])]
      refine ⟨rfl, ?_⟩
      cases hql : s.queue with
      | nil => exact absurd (by simp [hql]) hq
      | cons i rest =>
        simp [drain_loop, List.append_assoc]
  | cons url rest ih =>
    intro st s hr
    rcases handle_url_some env source url st h with ⟨info, st', k, hh, -⟩
    rcases sim_step_spec env source url st s info st' k hh hr with
      ⟨s2, hstep, hr2, -, hpq⟩
    simp only [sim_run_go, hstep]
    rcases ih st' s2 hr2 with ⟨ih1, ih2⟩
    refine ⟨ih1, ?_⟩
    rw [ih2, hpq]
    have hem : (links_rating_go env source (url :: rest) st 0 []).emitted
        = info :: (links_rating_go env source rest st' 0 []).emitted := by
      simp only [links_rating_go, hh]
      rw [links_rating_go_emitted_acc env source rest st' (0 + k)
        ([] ++ [info])]
      simp
    rw [hem]
    simp [List.append_assoc]

/-- C3 counterexample.  Two URLs rejected by the allow-list are processed
without any producer suspension, so both results are enqueued and
`IS_STOP` is set before the reporter ever runs; the reporter then wakes
once, prints the first result, observes `IS_STOP` and exits while the
second enqueued result is still sitting undrained in the queue — refuting
"it never exits while an emitted NewsInfo is still undrained". -/
theorem C3_counterexample :
    (sim_run env0 FILE_SOURCE
      ["https://bad-domain.test/a", "https://bad-domain.test/b"]
      ).reporter_done = true ∧
    (sim_run env0 FILE_SOURCE
      ["https://bad-domain.test/a", "https://bad-domain.test/b"]
      ).queue
      = [{ url := "https://bad-domain.test/b",
           status := PARSING_ERROR }] ∧
    (sim_run env0 FILE_SOURCE
      ["https://bad-domain.test/a", "https://bad-domain.test/b"]
      ).printed
      = [{ url := "https://bad-domain.test/a",
           status := PARSING_ERROR }] ∧
    (sim_run env0 FILE_SOURCE
      ["https://bad-domain.test/a", "https://bad-domain.test/b"]
      ).stopped = true := by
  refine ⟨?_, ?_, ?_, ?_⟩ <;> decide

/-- C3 amended.  The reporter exits only after the run state is Stopped
(the final state always has `stopped = true` for a recognized vocabulary
source), and what it prints is an initial segment of the emitted results
in emission order — `printed ++ queue` is exactly the emitted sequence,
so nothing is lost or duplicated between queue and output — but the
reporter does not drain the queue before exiting: results enqueued after
the producer's last suspension, beyond the first, remain unconsumed (and
when the queue is empty at producer completion the reporter never wakes
and never terminates at all). -/
theorem C3_reporter_exit_after_stop (env : Env) (source : Nat)
    (links : List String)
    (h : source = FILE_SOURCE ∨ source = URL_SOURCE) :
    (sim_run env source links).stopped = true ∧
    (sim_run env source links).printed ++ (sim_run env source links).queue
      = (get_links_rating env source links).emitted := by
  rcases sim_run_go_spec env source h links {} {} rfl with ⟨h1, h2⟩
  refine ⟨h1, ?_⟩
  simpa [sim_run, get_links_rating] using h2

theorem C3_reporter_exit_after_stop_witness :
    (FILE_SOURCE = FILE_SOURCE ∨ FILE_SOURCE = URL_SOURCE) ∧
    (sim_run env0 FILE_SOURCE ["https://bad-domain.test/a"]).stopped
      = true ∧
    (sim_run env0 FILE_SOURCE ["https://bad-domain.test/a"]).printed
        ++ (sim_run env0 FILE_SOURCE ["https://bad-domain.test/a"]).queue
      = (get_links_rating env0 FILE_SOURCE
          ["https://bad-domain.test/a"]).emitted :=
  ⟨Or.inl rfl,
    C3_reporter_exit_after_stop env0 FILE_SOURCE _ (Or.inl rfl)⟩

/-- C5.  Evaluation at the failing input, the empty URL list: zero
results are produced and the work status does reach `IS_STOP`
immediately, but the reporter never terminates — `show_news_info` stays
blocked on `await self.__news_info.get()` with nothing ever enqueued
(`reporter_done = false` in the final state), so `run` itself never
returns, contradicting the claim's termination part. -/
theorem C5_empty_list_reporter_blocks :
    sim_run env0 FILE_SOURCE []
      = { queue := [], printed := [], reporter_done := false,
          stopped := true } ∧
    (get_links_rating env0 FILE_SOURCE []).emitted = [] := by
  exact ⟨rfl, rfl⟩

end WebFilter
